import Mathlib

/-
Verification of the vector similarity search pipeline of the
Freight-Payment-AI-Assistant repository (src/services/vector_search.py,
src/config.py), as a shallow embedding in Lean 4.

External collaborators (the VoyageAI embedding provider and the MongoDB
store) are modelled as oracles supplied in an `Env`; the service's calls to
them are recorded in an explicit effect trace.  The MD5 digest applied to
the canonical cache-key serialization is modelled as the identity on that
serialization (an injective fingerprint); MD5 collision behaviour is not
modelled.  Time is an explicit natural-number parameter threaded through
the cache operations, mirroring the TTL clock of `cachetools.TTLCache`.
-/

namespace Freight

/- ## Decimal rendering of integers, as produced by `json.dumps` -/

def digitChar (n : ℕ) : Char := Char.ofNat (48 + n)

/-- Digits of `n` in base 10, most significant first, with explicit fuel
(the fuel `n + 1` always suffices). -/
def natDecimalAux : ℕ → ℕ → List Char
  | 0, _ => []
  | fuel + 1, n =>
    if n < 10 then [digitChar n]
    else natDecimalAux fuel (n / 10) ++ [digitChar (n % 10)]

def natDecimal (n : ℕ) : String := ⟨natDecimalAux (n + 1) n⟩

def digitVal (c : Char) : ℕ := c.toNat - 48

def decodeDigits (cs : List Char) : ℕ :=
  cs.foldl (fun a c => 10 * a + digitVal c) 0

/- ## JSON string escaping, as in Python's json.dumps (ensure_ascii) -/

def hexDigitChar (n : ℕ) : Char :=
  if n < 10 then Char.ofNat (48 + n) else Char.ofNat (87 + n)

def uEscape (n : ℕ) : List Char :=
  ['\\', 'u', hexDigitChar (n / 4096 % 16), hexDigitChar (n / 256 % 16),
   hexDigitChar (n / 16 % 16), hexDigitChar (n % 16)]

def jsonEscapeChar (c : Char) : List Char :=
  if c = '"' then ['\\', '"']
  else if c = '\\' then ['\\', '\\']
  else if c = '\x08' then ['\\', 'b']
  else if c = '\x0c' then ['\\', 'f']
  else if c = '\n' then ['\\', 'n']
  else if c = '\r' then ['\\', 'r']
  else if c = '\t' then ['\\', 't']
  else if c.toNat < 0x20 ∨ 0x7e < c.toNat then
    if 0x10000 ≤ c.toNat then
      uEscape (0xd800 + (c.toNat - 0x10000) / 1024) ++
        uEscape (0xdc00 + (c.toNat - 0x10000) % 1024)
    else uEscape c.toNat
  else [c]

def jsonEscapeList (s : String) : List Char :=
  '"' :: (s.data.map jsonEscapeChar).flatten ++ ['"']

def jsonEscapeString (s : String) : String := ⟨jsonEscapeList s⟩

/- ## json.dumps with sort_keys=True over a flat object -/

inductive JVal where
  | jstr (s : String)
  | jnat (n : ℕ)
deriving DecidableEq

def natDecimalL (n : ℕ) : List Char := natDecimalAux (n + 1) n

/-- One `name: value` field of the serialized object, with json.dumps's
default `": "` key separator. -/
def serializeField (f : String × JVal) : List Char :=
  jsonEscapeList f.1 ++ ':' :: ' ' ::
    (match f.2 with
     | JVal.jstr v => jsonEscapeList v
     | JVal.jnat n => natDecimalL n)

/-- Code-point lexicographic comparison of character lists: the order by
which Python compares strings, hence the order used by
`json.dumps(..., sort_keys=True)`. -/
def charListLt : List Char → List Char → Bool
  | [], [] => false
  | [], _ :: _ => true
  | _ :: _, [] => false
  | a :: as, b :: bs =>
    if a.toNat < b.toNat then true
    else if b.toNat < a.toNat then false
    else charListLt as bs

def strLt (a b : String) : Bool := charListLt a.data b.data

def insertField (x : String × JVal) : List (String × JVal) → List (String × JVal)
  | [] => [x]
  | y :: ys => if strLt y.1 x.1 then y :: insertField x ys else x :: y :: ys

def sortFields (fs : List (String × JVal)) : List (String × JVal) :=
  fs.foldr insertField []

/-- Item joining with json.dumps's default `", "` item separator. -/
def joinFields : List (List Char) → List Char
  | [] => []
  | [x] => x
  | x :: xs => x ++ ',' :: ' ' :: joinFields xs

def jsonDumpsSorted (fs : List (String × JVal)) : String :=
  ⟨'\x7b' :: (joinFields ((sortFields fs).map serializeField) ++ ['\x7d'])⟩

/-- The cache key of `VectorSearchService._generate_cache_key`: the sorted
canonical JSON serialization of the dict built, in source order, as
query / limit / model.  The MD5 hexdigest applied to this serialization is
modelled as the identity (see the header note). -/
def cacheKeyFor (query : String) (limit : ℕ) (model : String) : String :=
  jsonDumpsSorted
    [("query", JVal.jstr query), ("limit", JVal.jnat limit), ("model", JVal.jstr model)]

/-- Extracts the `limit` component back out of a serialized cache key:
skip the 10 characters of the leading brace and `"limit": `, then decode
the digit run. -/
def keyLimitOf (key : String) : ℕ :=
  decodeDigits ((key.data.drop 10).takeWhile Char.isDigit)

/-- Extracts the serialized `model` component out of a cache key: skip the
limit header, the digit run and the 11 characters of `, "model": `, then
take until the following comma. -/
def keyModelOf (key : String) : List Char :=
  ((((key.data.drop 10).dropWhile Char.isDigit).drop 11).takeWhile (fun c => c != ','))

/- ## Configuration (src/config.py, Settings) -/

structure Settings where
  voyage_api_key : String
  voyage_model : String
  vector_index_name : String
  cache_ttl : ℕ
  default_search_limit : ℕ
  max_search_limit : ℕ
  vector_search_candidates : ℕ
deriving DecidableEq

/-- The default field values of `Settings` in src/config.py. -/
def defaultSettings : Settings :=
  ⟨"demo-voyage-key-replace-with-real-key", "voyage-3-large", "default", 3600, 10, 100, 200⟩

/- ## Data model -/

/-- A record as returned by the `$project` stage of the search pipeline:
`_id`, the vector-search score, the extracted `reason` text and the
projected event/metadata fields. -/
structure SearchResult where
  _id : String
  score : ℚ
  reason : String
  event_type : Option String
  timestamp : Option ℕ
  carrier : Option String
  status : Option String
  transaction_id : Option String
deriving DecidableEq

/-- Nested shape of a stored document along the path
`event.eventData.subTypeData.reason`, each level optional as in the
dynamic `dict.get` chain of the source. -/
structure DocSubTypeData where
  reason : Option String
deriving DecidableEq

structure DocEventData where
  subTypeData : Option DocSubTypeData
deriving DecidableEq

structure DocEvent where
  eventData : Option DocEventData
deriving DecidableEq

/-- A document of the MongoDB collection: its id, the nested event record
and the optional `Reason_Embedded` vector field. -/
structure StoredDoc where
  _id : String
  event : Option DocEvent
  reasonEmbedded : Option (List ℚ)
deriving DecidableEq

/-- The reason extraction of `find_similar_by_id`:
`document.get("event", {}).get("eventData", {}).get("subTypeData", {}).get("reason", "")`. -/
def docReason (d : StoredDoc) : String :=
  match d.event with
  | none => ""
  | some ev =>
    match ev.eventData with
    | none => ""
    | some ed =>
      match ed.subTypeData with
      | none => ""
      | some st => st.reason.getD ""

/- ## Effects and errors -/

/-- Outbound calls the service makes: an embedding-provider call, a
`$vectorSearch` aggregation against the store (index name, vector path,
numCandidates, limit), or a point lookup by document id. -/
inductive Effect where
  | embedCall (text : String)
  | storeQuery (index : String) (path : String) (numCandidates : ℕ) (lim : ℕ)
  | docLookup (id : String)
deriving DecidableEq

/-- The distinct failure conditions raised by the service, one per raise
site of the source. -/
inductive SearchError where
  | clientNotInitialized
  | providerError (msg : String)
  | mongoError (msg : String)
  | notFound (id : String)
  | noReason (id : String)
deriving DecidableEq

def isEmbedCall : Effect → Bool
  | Effect.embedCall _ => true
  | _ => false

def isStoreQuery : Effect → Bool
  | Effect.storeQuery _ _ _ _ => true
  | _ => false

def embedCallCount (tr : List Effect) : ℕ := tr.countP isEmbedCall

def storeQueryCount (tr : List Effect) : ℕ := tr.countP isStoreQuery

/-- The parameters of every store query in a trace. -/
def storeQueries (tr : List Effect) : List (String × String × ℕ × ℕ) :=
  tr.filterMap fun e =>
    match e with
    | Effect.storeQuery i p n l => some (i, p, n, l)
    | _ => none

/- ## External collaborators as oracles -/

/-- Environment of external behaviour: the embedding provider's response
per text, the store's response to a `$vectorSearch` aggregation
(index name, query vector, numCandidates, limit), and point lookup by id. -/
structure Env where
  embed : String → Except String (List ℚ)
  aggregate : String → List ℚ → ℕ → ℕ → Except String (List SearchResult)
  findOne : String → Option StoredDoc

/- ## Cache (cachetools.TTLCache) -/

/-- A cache entry stores its key, insertion time and value; `cacheGet`
enforces the TTL on access, as `TTLCache` does.  The maxsize-1000 LRU
eviction of the source only acts when more than 1000 live keys exist and
is not modelled. -/
abbrev Cache := List (String × ℕ × List SearchResult)

def cacheGet (s : Settings) (c : Cache) (now : ℕ) (key : String) :
    Option (List SearchResult) :=
  match c.find? (fun e => e.1 == key) with
  | some (_, t, v) => if now < t + s.cache_ttl then some v else none
  | none => none

def cachePut (c : Cache) (now : ℕ) (key : String) (v : List SearchResult) : Cache :=
  (key, now, v) :: c.filter (fun e => e.1 != key)

/- ## The service operations (src/services/vector_search.py) -/

/-- `_generate_cache_key(query, limit)` keyed additionally on the
configured model, as in the source. -/
def generateCacheKey (s : Settings) (query : String) (limit : ℕ) : String :=
  cacheKeyFor query limit s.voyage_model

/-- `_generate_embedding`: raises when no VoyageAI client was initialized
(`_initialize_connections` creates one only when the api key is set,
i.e. a nonempty string), otherwise makes exactly one provider call and
propagates its failure. -/
def generateEmbedding (env : Env) (s : Settings) (text : String) :
    Except SearchError (List ℚ) × List Effect :=
  if s.voyage_api_key = "" then (Except.error SearchError.clientNotInitialized, [])
  else
    match env.embed text with
    | Except.ok v => (Except.ok v, [Effect.embedCall text])
    | Except.error msg => (Except.error (SearchError.providerError msg), [Effect.embedCall text])

/-- The cache key `search` computes after defaulting the limit. -/
def searchKey (s : Settings) (query : String) (limitOpt : Option ℕ) : String :=
  generateCacheKey s query (limitOpt.getD s.default_search_limit)

/-- `search(query, limit=None)`: default the limit, consult the cache,
otherwise embed the query, run the `$vectorSearch` aggregation with the
configured candidate count and `min(limit, max_search_limit)`, cache and
return the results.  Returns the result, the new cache state and the
trace of outbound calls. -/
def search (env : Env) (s : Settings) (st : Cache) (now : ℕ)
    (query : String) (limitOpt : Option ℕ) :
    Except SearchError (List SearchResult) × Cache × List Effect :=
  match cacheGet s st now (searchKey s query limitOpt) with
  | some results => (Except.ok results, st, [])
  | none =>
    match generateEmbedding env s query with
    | (Except.error e, effs) => (Except.error e, st, effs)
    | (Except.ok queryVector, effs) =>
      match env.aggregate s.vector_index_name queryVector s.vector_search_candidates
          (min (limitOpt.getD s.default_search_limit) s.max_search_limit) with
      | Except.error msg =>
        (Except.error (SearchError.mongoError msg), st,
         effs ++ [Effect.storeQuery s.vector_index_name "Reason_Embedded"
           s.vector_search_candidates
           (min (limitOpt.getD s.default_search_limit) s.max_search_limit)])
      | Except.ok results =>
        (Except.ok results, cachePut st now (searchKey s query limitOpt) results,
         effs ++ [Effect.storeQuery s.vector_index_name "Reason_Embedded"
           s.vector_search_candidates
           (min (limitOpt.getD s.default_search_limit) s.max_search_limit)])

/-- `find_similar_by_id(document_id, limit=10)`: look the document up,
extract its reason, search with `limit + 1`, filter the origin document
out and truncate to `limit`. -/
def findSimilarById (env : Env) (s : Settings) (st : Cache) (now : ℕ)
    (documentId : String) (limit : ℕ) :
    Except SearchError (List SearchResult) × Cache × List Effect :=
  match env.findOne documentId with
  | none => (Except.error (SearchError.notFound documentId), st, [Effect.docLookup documentId])
  | some document =>
    if docReason document = "" then
      (Except.error (SearchError.noReason documentId), st, [Effect.docLookup documentId])
    else
      match search env s st now (docReason document) (some (limit + 1)) with
      | (Except.error e, st', effs) =>
        (Except.error e, st', Effect.docLookup documentId :: effs)
      | (Except.ok results, st', effs) =>
        (Except.ok ((results.filter (fun r => r._id != documentId)).take limit), st',
         Effect.docLookup documentId :: effs)

/- ## Collection statistics (get_collection_stats) -/

/-- Round half to even, the semantics of Python's builtin `round`
on the mathematical value. -/
def roundHalfEven (x : ℚ) : ℤ :=
  if x - (⌊x⌋ : ℚ) < 1 / 2 then ⌊x⌋
  else if (1 : ℚ) / 2 < x - (⌊x⌋ : ℚ) then ⌊x⌋ + 1
  else if ⌊x⌋ % 2 = 0 then ⌊x⌋ else ⌊x⌋ + 1

/-- `round(x, 2)` over exact rationals.  Python computes this on binary
floats; the ulp-level representation error of the float division is not
modelled. -/
def round2 (x : ℚ) : ℚ := (roundHalfEven (x * 100) : ℚ) / 100

/-- The `event.eventData.subTypeData.reason` path as an optional value
(`none` when some level is missing), used by the `$match` stage of the
top-reasons aggregation. -/
def reasonPath (d : StoredDoc) : Option String :=
  ((d.event.bind (fun ev => ev.eventData)).bind
    (fun ed => ed.subTypeData)).bind (fun st => st.reason)

def insertByCount (x : String × ℕ) : List (String × ℕ) → List (String × ℕ)
  | [] => [x]
  | y :: ys => if x.2 ≤ y.2 then y :: insertByCount x ys else x :: y :: ys

def sortByCountDesc (xs : List (String × ℕ)) : List (String × ℕ) :=
  xs.foldr insertByCount []

/-- The `$match`/`$group`/`$sort`/`$limit 20` aggregation of
`get_collection_stats`: reasons present in the collection with their
multiplicities, sorted by descending count, first twenty. -/
def topReasons (docs : List StoredDoc) : List (String × ℕ) :=
  (sortByCountDesc
    ((docs.filterMap reasonPath).dedup.map
      (fun r => (r, (docs.filterMap reasonPath).count r)))).take 20

structure CollectionStats where
  total_documents : ℕ
  embedded_documents : ℕ
  embedding_percentage : ℚ
  top_reasons : List (String × ℕ)
  cache_size : ℕ
deriving DecidableEq

/-- `get_collection_stats`: total documents, documents with a
`Reason_Embedded` field, the rounded embedding percentage (0 when the
collection is empty), the top reasons and the cache size. -/
def getCollectionStats (c : Cache) (docs : List StoredDoc) : CollectionStats :=
  ⟨docs.length,
   (docs.filter (fun d => d.reasonEmbedded.isSome)).length,
   if 0 < docs.length then
     round2 (((docs.filter (fun d => d.reasonEmbedded.isSome)).length : ℚ)
       / (docs.length : ℚ) * 100)
   else 0,
   topReasons docs,
   c.length⟩

/- ## Witness environments and inputs -/

/-- An environment whose provider and store always succeed (the store
returns no matches). -/
def envOk : Env :=
  ⟨fun _ => Except.ok [(1 : ℚ)], fun _ _ _ _ => Except.ok [], fun _ => none⟩

/-- An environment whose provider call fails. -/
def envFail : Env :=
  ⟨fun _ => Except.error "boom", fun _ _ _ _ => Except.ok [], fun _ => none⟩

/-- A settings value with no VoyageAI api key configured. -/
def settingsNoKey : Settings :=
  ⟨"", "voyage-3-large", "default", 3600, 10, 100, 200⟩

def docX : StoredDoc := ⟨"X", some ⟨some ⟨some ⟨some "r"⟩⟩⟩, none⟩

def docNoReasonY : StoredDoc := ⟨"Y", none, none⟩

def resA : SearchResult := ⟨"A", 9 / 10, "r", none, none, none, none, none⟩

def resX : SearchResult := ⟨"X", 1, "r", none, none, none, none, none⟩

def resB : SearchResult := ⟨"B", 1 / 2, "r", none, none, none, none, none⟩

/-- An environment where document "X" exists with reason text "r",
document "Y" exists without a reason, and the store returns three matches
one of which is "X" itself. -/
def envDoc : Env :=
  ⟨fun _ => Except.ok [(1 : ℚ)],
   fun _ _ _ _ => Except.ok [resX, resA, resB],
   fun i => if i = "X" then some docX else if i = "Y" then some docNoReasonY else none⟩

/-- Three stored documents of which exactly one carries an embedding. -/
def docsC6 : List StoredDoc := [⟨"a", none, some [1]⟩, ⟨"b", none, none⟩, ⟨"c", none, none⟩]

/- ## Lemmas: decimal digits -/

theorem digitVal_digitChar (n : ℕ) (h : n < 10) : digitVal (digitChar n) = n := by
  interval_cases n <;> decide

theorem isDigit_digitChar (n : ℕ) (h : n < 10) : (digitChar n).isDigit = true := by
  interval_cases n <;> decide

theorem natDecimalAux_digits :
    ∀ f n, ∀ c ∈ natDecimalAux f n, c.isDigit = true := by
  intro f
  induction f with
  | zero => intro n c hc; simp [natDecimalAux] at hc
  | succ f ih =>
    intro n c hc
    by_cases h : n < 10
    · simp only [natDecimalAux, if_pos h, List.mem_singleton] at hc
      exact hc ▸ isDigit_digitChar n h
    · simp only [natDecimalAux, if_neg h, List.mem_append, List.mem_singleton] at hc
      rcases hc with hc | hc
      · exact ih _ c hc
      · exact hc ▸ isDigit_digitChar _ (Nat.mod_lt _ (by norm_num))

theorem decodeDigits_append_singleton (xs : List Char) (c : Char) :
    decodeDigits (xs ++ [c]) = 10 * decodeDigits xs + digitVal c := by
  simp [decodeDigits, List.foldl_append]

theorem decode_natDecimalAux :
    ∀ f n, n < 10 ^ f → decodeDigits (natDecimalAux f n) = n := by
  intro f
  induction f with
  | zero =>
    intro n h
    interval_cases n
    simp [natDecimalAux, decodeDigits]
  | succ f ih =>
    intro n h
    by_cases h10 : n < 10
    · simp only [natDecimalAux, if_pos h10, decodeDigits, List.foldl]
      rw [Nat.mul_zero, Nat.zero_add]
      exact digitVal_digitChar n h10
    · rw [natDecimalAux, if_neg h10, decodeDigits_append_singleton,
        digitVal_digitChar _ (Nat.mod_lt _ (by norm_num)),
        ih (n / 10) (by rw [Nat.div_lt_iff_lt_mul (by norm_num)]; rw [pow_succ] at h; exact h)]
      omega

theorem decode_natDecimalL (n : ℕ) : decodeDigits (natDecimalL n) = n :=
  decode_natDecimalAux (n + 1) n
    (lt_of_lt_of_le (Nat.lt_pow_self (by norm_num) n)
      (Nat.pow_le_pow_right (by norm_num) (Nat.le_succ n)))

theorem takeWhile_digits_append (xs : List Char) (hxs : ∀ c ∈ xs, c.isDigit = true)
    (y : Char) (hy : y.isDigit = false) (ys : List Char) :
    ((xs ++ y :: ys).takeWhile Char.isDigit) = xs := by
  induction xs with
  | nil => simp [List.takeWhile_cons, hy]
  | cons a as ih =>
    simp only [List.cons_append, List.takeWhile_cons, hxs a (by simp), if_true]
    rw [ih (fun c hc => hxs c (by simp [hc]))]

/- ## Lemmas: cache-key structure -/

theorem keyLimitOf_cacheKeyFor (q : String) (l : ℕ) (m : String) :
    keyLimitOf (cacheKeyFor q l m) = l := by
  have h1 : keyLimitOf (cacheKeyFor q l m) =
      decodeDigits
        (((natDecimalL l ++
            ',' :: ' ' :: joinFields
              [serializeField ("model", JVal.jstr m),
               serializeField ("query", JVal.jstr q)]) ++ ['\x7d']).takeWhile Char.isDigit) := rfl
  rw [h1, List.append_assoc, List.cons_append, List.cons_append,
    takeWhile_digits_append (natDecimalL l) (natDecimalAux_digits _ _) ',' (by decide),
    decode_natDecimalL]

theorem cacheKeyFor_limit_inj (q m : String) {l1 l2 : ℕ} (h : l1 ≠ l2) :
    cacheKeyFor q l1 m ≠ cacheKeyFor q l2 m := by
  intro he
  exact h (by rw [← keyLimitOf_cacheKeyFor q l1 m, he, keyLimitOf_cacheKeyFor])

theorem cacheKeyFor_model_m1_m2 (q : String) :
    cacheKeyFor q 5 "m1" ≠ cacheKeyFor q 5 "m2" := by
  intro he
  have h1 : keyModelOf (cacheKeyFor q 5 "m1") = "\"m1\"".data := rfl
  have h2 : keyModelOf (cacheKeyFor q 5 "m2") = "\"m2\"".data := rfl
  have h3 := congrArg keyModelOf he
  rw [h1, h2] at h3
  exact absurd h3 (by decide)

/- ## Lemmas: cache behaviour -/

theorem find?_filter_of_imp (l : List (String × ℕ × List SearchResult))
    (p q : String × ℕ × List SearchResult → Bool)
    (h : ∀ e, p e = true → q e = true) :
    (l.filter q).find? p = l.find? p := by
  induction l with
  | nil => rfl
  | cons a l ih =>
    by_cases hq : q a = true
    · rw [List.filter_cons_of_pos hq]
      by_cases hp : p a = true
      · rw [List.find?_cons_of_pos _ hp, List.find?_cons_of_pos _ hp]
      · rw [List.find?_cons_of_neg _ hp, List.find?_cons_of_neg _ hp, ih]
    · rw [List.filter_cons_of_neg hq]
      have hp : ¬ p a = true := fun hpa => hq (h a hpa)
      rw [List.find?_cons_of_neg _ hp, ih]

theorem cacheGet_put_self (s : Settings) (st : Cache) (t now : ℕ) (k : String)
    (v : List SearchResult) (h : now < t + s.cache_ttl) :
    cacheGet s (cachePut st t k v) now k = some v := by
  simp [cacheGet, cachePut, h]

theorem cacheGet_put_other (s : Settings) (st : Cache) (t now : ℕ) (k k' : String)
    (v : List SearchResult) (h : k' ≠ k) :
    cacheGet s (cachePut st t k v) now k' = cacheGet s st now k' := by
  unfold cacheGet cachePut
  rw [List.find?_cons_of_neg _ (by simp only [beq_iff_eq]; exact Ne.symm h),
    find?_filter_of_imp st _ _ (fun e he => by
      simp only [beq_iff_eq] at he
      simp [he, h])]

/- ## Lemmas: embedding generation -/

theorem generateEmbedding_noKey (env : Env) (s : Settings) (text : String)
    (h : s.voyage_api_key = "") :
    generateEmbedding env s text = (Except.error SearchError.clientNotInitialized, []) := by
  simp [generateEmbedding, h]

theorem generateEmbedding_ok (env : Env) (s : Settings) (text : String) (v : List ℚ)
    (hk : s.voyage_api_key ≠ "") (he : env.embed text = Except.ok v) :
    generateEmbedding env s text = (Except.ok v, [Effect.embedCall text]) := by
  simp [generateEmbedding, hk, he]

theorem generateEmbedding_err (env : Env) (s : Settings) (text : String) (msg : String)
    (hk : s.voyage_api_key ≠ "") (he : env.embed text = Except.error msg) :
    generateEmbedding env s text =
      (Except.error (SearchError.providerError msg), [Effect.embedCall text]) := by
  simp [generateEmbedding, hk, he]

theorem generateEmbedding_at_most_one_call (env : Env) (s : Settings) (text : String) :
    embedCallCount (generateEmbedding env s text).2 ≤ 1 := by
  unfold generateEmbedding
  by_cases h : s.voyage_api_key = ""
  · simp [h, embedCallCount]
  · rcases he : env.embed text with msg | v <;>
      simp [h, he, embedCallCount, isEmbedCall]

/- ## Lemmas: search characterization -/

theorem search_hit (env : Env) (s : Settings) (st : Cache) (now : ℕ)
    (q : String) (lo : Option ℕ) (res : List SearchResult)
    (h : cacheGet s st now (searchKey s q lo) = some res) :
    search env s st now q lo = (Except.ok res, st, []) := by
  simp [search, h]

/-- A successful `search` that missed the cache: the api key was present,
the provider and the store were each called exactly once and succeeded,
and the result was written to the cache under the query's key. -/
theorem search_miss_ok (env : Env) (s : Settings) (st : Cache) (now : ℕ)
    (q : String) (lo : Option ℕ) (res : List SearchResult) (st' : Cache)
    (tr : List Effect)
    (hmiss : cacheGet s st now (searchKey s q lo) = none)
    (h : search env s st now q lo = (Except.ok res, st', tr)) :
    st' = cachePut st now (searchKey s q lo) res ∧
    tr = [Effect.embedCall q,
      Effect.storeQuery s.vector_index_name "Reason_Embedded" s.vector_search_candidates
        (min (lo.getD s.default_search_limit) s.max_search_limit)] ∧
    s.voyage_api_key ≠ "" ∧
    ∃ v, env.embed q = Except.ok v ∧
      env.aggregate s.vector_index_name v s.vector_search_candidates
        (min (lo.getD s.default_search_limit) s.max_search_limit) = Except.ok res := by
  by_cases hk : s.voyage_api_key = ""
  · simp [search, hmiss, generateEmbedding_noKey env s q hk] at h
  · rcases he : env.embed q with msg | v
    · simp [search, hmiss, generateEmbedding_err env s q msg hk he] at h
    · rcases ha : env.aggregate s.vector_index_name v s.vector_search_candidates
          (min (lo.getD s.default_search_limit) s.max_search_limit) with msg | results
      · simp [search, hmiss, generateEmbedding_ok env s q v hk he, ha] at h
      · simp only [search, hmiss, generateEmbedding_ok env s q v hk he, ha,
          Prod.mk.injEq, Except.ok.injEq, List.singleton_append] at h
        obtain ⟨hres, hst, htr⟩ := h
        subst hres
        exact ⟨hst.symm, htr.symm, hk, v, rfl, ha⟩

/-- A `search` that missed the cache and failed at the embedding stage:
the failure propagates, the store is not queried and the cache is
unchanged. -/
theorem search_embed_fail (env : Env) (s : Settings) (st : Cache) (now : ℕ)
    (q : String) (lo : Option ℕ) (msg : String)
    (hmiss : cacheGet s st now (searchKey s q lo) = none)
    (hk : s.voyage_api_key ≠ "") (he : env.embed q = Except.error msg) :
    search env s st now q lo =
      (Except.error (SearchError.providerError msg), st, [Effect.embedCall q]) := by
  simp [search, hmiss, generateEmbedding_err env s q msg hk he]

/-- Every store query a `search` run issues uses the configured index,
the fixed vector path, the configured candidate count, and the requested
limit clamped to the configured maximum. -/
theorem search_storeQueries (env : Env) (s : Settings) (st : Cache) (now : ℕ)
    (q : String) (lo : Option ℕ) (r : Except SearchError (List SearchResult))
    (st' : Cache) (tr : List Effect)
    (h : search env s st now q lo = (r, st', tr)) :
    ∀ x ∈ storeQueries tr,
      x = (s.vector_index_name, "Reason_Embedded", s.vector_search_candidates,
        min (lo.getD s.default_search_limit) s.max_search_limit) := by
  rcases hc : cacheGet s st now (searchKey s q lo) with _ | res
  · by_cases hk : s.voyage_api_key = ""
    · simp only [search, hc, generateEmbedding_noKey env s q hk, Prod.mk.injEq] at h
      obtain ⟨-, -, htr⟩ := h
      simp [← htr, storeQueries]
    · rcases he : env.embed q with msg | v
      · simp only [search, hc, generateEmbedding_err env s q msg hk he, Prod.mk.injEq] at h
        obtain ⟨-, -, htr⟩ := h
        simp [← htr, storeQueries]
      · rcases ha : env.aggregate s.vector_index_name v s.vector_search_candidates
            (min (lo.getD s.default_search_limit) s.max_search_limit) with msg | results <;>
          simp only [search, hc, generateEmbedding_ok env s q v hk he, ha,
            Prod.mk.injEq, List.singleton_append] at h <;>
          obtain ⟨-, -, htr⟩ := h <;>
          simp [← htr, storeQueries]
  · simp only [search, hc, Prod.mk.injEq] at h
    obtain ⟨-, -, htr⟩ := h
    simp [← htr, storeQueries]

/- ## Lemmas: rounding bounds -/

theorem floor_le_roundHalfEven (x : ℚ) : ⌊x⌋ ≤ roundHalfEven x := by
  unfold roundHalfEven
  split_ifs <;> omega

theorem roundHalfEven_nonneg (x : ℚ) (h : 0 ≤ x) : 0 ≤ roundHalfEven x := by
  have hf : (0 : ℤ) ≤ ⌊x⌋ := Int.floor_nonneg.mpr h
  unfold roundHalfEven
  split_ifs <;> omega

theorem roundHalfEven_le_of_le (x : ℚ) (n : ℤ) (h : x ≤ (n : ℚ)) :
    roundHalfEven x ≤ n := by
  have hf : ⌊x⌋ ≤ n := by
    have h2 : ⌊x⌋ ≤ ⌊(n : ℚ)⌋ := Int.floor_le_floor h
    rwa [Int.floor_intCast] at h2
  have hkey : x - (⌊x⌋ : ℚ) < 1 / 2 ∨ ⌊x⌋ + 1 ≤ n := by
    by_cases hend : ⌊x⌋ = n
    · left
      have hle : x - (⌊x⌋ : ℚ) ≤ 0 := by
        rw [hend]
        linarith
      linarith
    · right
      omega
  unfold roundHalfEven
  split_ifs with hc1 hc2 hc3
  · exact hf
  · rcases hkey with hk | hk
    · exact absurd hk hc1
    · exact hk
  · exact hf
  · rcases hkey with hk | hk
    · exact absurd hk hc1
    · exact hk

theorem round2_nonneg (x : ℚ) (h : 0 ≤ x) : 0 ≤ round2 x := by
  unfold round2
  have h1 := roundHalfEven_nonneg (x * 100) (by positivity)
  have h2 : (0 : ℚ) ≤ (roundHalfEven (x * 100) : ℚ) := by exact_mod_cast h1
  positivity

theorem round2_le_hundred (x : ℚ) (h : x ≤ 100) : round2 x ≤ 100 := by
  unfold round2
  have h1 : roundHalfEven (x * 100) ≤ (10000 : ℤ) :=
    roundHalfEven_le_of_le (x * 100) 10000 (by push_cast; linarith)
  rw [div_le_iff₀ (by norm_num)]
  have h2 : ((roundHalfEven (x * 100) : ℤ) : ℚ) ≤ 10000 := by exact_mod_cast h1
  linarith

/- ## Claim theorems -/

/-- C1: for every query text and limit, two consecutive calls to `search`
with identical arguments within the cache TTL window (counted from the
first, cache-missing, call) issue at most one embedding call and at most
one store query in total: the second call finds the key in the cache and
returns the cached sequence with an empty effect trace, leaving the cache
unchanged. -/
theorem c1_second_search_is_cache_hit (env : Env) (s : Settings) (st : Cache)
    (now₁ now₂ : ℕ) (q : String) (lo : Option ℕ) (res : List SearchResult)
    (st₁ : Cache) (tr₁ : List Effect)
    (hmiss : cacheGet s st now₁ (searchKey s q lo) = none)
    (h1 : search env s st now₁ q lo = (Except.ok res, st₁, tr₁))
    (_hle : now₁ ≤ now₂) (httl : now₂ < now₁ + s.cache_ttl) :
    search env s st₁ now₂ q lo = (Except.ok res, st₁, []) ∧
    embedCallCount tr₁ ≤ 1 ∧ storeQueryCount tr₁ ≤ 1 := by
  obtain ⟨hst, htr, -, -⟩ :=
    search_miss_ok env s st now₁ q lo res st₁ tr₁ hmiss h1
  subst hst htr
  refine ⟨search_hit env s _ now₂ q lo res
    (cacheGet_put_self s st now₁ now₂ (searchKey s q lo) res httl), ?_, ?_⟩ <;>
    simp [embedCallCount, storeQueryCount, isEmbedCall, isStoreQuery]

/-- Witness for C1 at a concrete environment and query. -/
theorem c1_second_search_is_cache_hit_witness :
    search envOk defaultSettings
        (cachePut [] 0 (searchKey defaultSettings "validation failed" (some 3)) [])
        1 "validation failed" (some 3) =
      (Except.ok [],
       cachePut [] 0 (searchKey defaultSettings "validation failed" (some 3)) [], []) ∧
    embedCallCount
      [Effect.embedCall "validation failed",
       Effect.storeQuery "default" "Reason_Embedded" 200 (min 3 100)] ≤ 1 ∧
    storeQueryCount
      [Effect.embedCall "validation failed",
       Effect.storeQuery "default" "Reason_Embedded" 200 (min 3 100)] ≤ 1 :=
  c1_second_search_is_cache_hit envOk defaultSettings [] 0 1 "validation failed" (some 3) []
    (cachePut [] 0 (searchKey defaultSettings "validation failed" (some 3)) [])
    [Effect.embedCall "validation failed",
     Effect.storeQuery "default" "Reason_Embedded" 200 (min 3 100)]
    rfl rfl (by decide) (by decide)

/-- C2: the cache-key function is pure and deterministic (it is a function
of query, limit and model only); it produces the same key whatever order
the three fields of the serialized object are declared in; and the key
changes whenever the limit or the model identifier changes, in particular
key(q,5,m1) ≠ key(q,6,m1) and key(q,5,m1) ≠ key(q,5,m2) for all q. -/
theorem c2_cache_key_stable_and_distinguishing (q : String) (l : ℕ) (m : String) :
    (jsonDumpsSorted [("limit", JVal.jnat l), ("model", JVal.jstr m), ("query", JVal.jstr q)]
        = cacheKeyFor q l m ∧
     jsonDumpsSorted [("limit", JVal.jnat l), ("query", JVal.jstr q), ("model", JVal.jstr m)]
        = cacheKeyFor q l m ∧
     jsonDumpsSorted [("model", JVal.jstr m), ("limit", JVal.jnat l), ("query", JVal.jstr q)]
        = cacheKeyFor q l m ∧
     jsonDumpsSorted [("model", JVal.jstr m), ("query", JVal.jstr q), ("limit", JVal.jnat l)]
        = cacheKeyFor q l m ∧
     jsonDumpsSorted [("query", JVal.jstr q), ("limit", JVal.jnat l), ("model", JVal.jstr m)]
        = cacheKeyFor q l m ∧
     jsonDumpsSorted [("query", JVal.jstr q), ("model", JVal.jstr m), ("limit", JVal.jnat l)]
        = cacheKeyFor q l m) ∧
    cacheKeyFor q 5 "m1" ≠ cacheKeyFor q 6 "m1" ∧
    cacheKeyFor q 5 "m1" ≠ cacheKeyFor q 5 "m2" ∧
    (∀ l1 l2 m', l1 ≠ l2 → cacheKeyFor q l1 m' ≠ cacheKeyFor q l2 m') :=
  ⟨⟨rfl, rfl, rfl, rfl, rfl, rfl⟩,
   cacheKeyFor_limit_inj q "m1" (by decide),
   cacheKeyFor_model_m1_m2 q,
   fun _ _ m' h => cacheKeyFor_limit_inj q m' h⟩

/-- Witness for C2 at a concrete query, limits and model. -/
theorem c2_cache_key_stable_and_distinguishing_witness :
    cacheKeyFor "hello" 7 "mm" ≠ cacheKeyFor "hello" 9 "mm" :=
  (c2_cache_key_stable_and_distinguishing "hello" 0 "m").2.2.2 7 9 "mm" (by decide)

/-- C9: a search that succeeds with zero matching records stores the empty
sequence in the cache under the query's key, and a subsequent identical
query within the TTL window returns the empty sequence from the cache with
no embedding call and no store query. -/
theorem c9_empty_result_is_cached (env : Env) (s : Settings) (st : Cache)
    (now₁ now₂ : ℕ) (q : String) (lo : Option ℕ) (st₁ : Cache) (tr₁ : List Effect)
    (hmiss : cacheGet s st now₁ (searchKey s q lo) = none)
    (h1 : search env s st now₁ q lo = (Except.ok [], st₁, tr₁))
    (_hle : now₁ ≤ now₂) (httl : now₂ < now₁ + s.cache_ttl) :
    cacheGet s st₁ now₂ (searchKey s q lo) = some [] ∧
    search env s st₁ now₂ q lo = (Except.ok [], st₁, []) := by
  obtain ⟨hst, -, -, -⟩ :=
    search_miss_ok env s st now₁ q lo [] st₁ tr₁ hmiss h1
  subst hst
  have hget := cacheGet_put_self s st now₁ now₂ (searchKey s q lo) [] httl
  exact ⟨hget, search_hit env s _ now₂ q lo [] hget⟩

/-- Witness for C9 at a concrete environment whose store returns no
matches. -/
theorem c9_empty_result_is_cached_witness :
    cacheGet defaultSettings
        (cachePut [] 0 (searchKey defaultSettings "nothing here" (some 5)) [])
        2 (searchKey defaultSettings "nothing here" (some 5)) = some [] ∧
    search envOk defaultSettings
        (cachePut [] 0 (searchKey defaultSettings "nothing here" (some 5)) [])
        2 "nothing here" (some 5) =
      (Except.ok [],
       cachePut [] 0 (searchKey defaultSettings "nothing here" (some 5)) [], []) :=
  c9_empty_result_is_cached envOk defaultSettings [] 0 2 "nothing here" (some 5)
    (cachePut [] 0 (searchKey defaultSettings "nothing here" (some 5)) [])
    [Effect.embedCall "nothing here",
     Effect.storeQuery "default" "Reason_Embedded" 200 (min 5 100)]
    rfl rfl (by decide) (by decide)

/-- C6 counterexample: on a collection of three documents of which one is
embedded, `get_collection_stats` reports the value 33.33 — a percentage
rounded to two decimals — which neither equals the ratio 1/3 (neither
directly nor after division by 100) nor lies in the interval [0,1]. -/
theorem c6_counterexample :
    (getCollectionStats [] docsC6).total_documents = 3 ∧
    (getCollectionStats [] docsC6).embedded_documents = 1 ∧
    (getCollectionStats [] docsC6).embedding_percentage = 3333 / 100 ∧
    (getCollectionStats [] docsC6).embedding_percentage ≠ 1 / 3 ∧
    (getCollectionStats [] docsC6).embedding_percentage / 100 ≠ 1 / 3 ∧
    ¬ (getCollectionStats [] docsC6).embedding_percentage ≤ 1 := by
  have h : (getCollectionStats [] docsC6).embedding_percentage =
      round2 ((1 : ℚ) / 3 * 100) := rfl
  have h2 : round2 ((1 : ℚ) / 3 * 100) = 3333 / 100 := by
    norm_num [round2, roundHalfEven]
  refine ⟨rfl, rfl, by rw [h, h2], ?_, ?_, ?_⟩ <;> rw [h, h2] <;> norm_num

/-- C6 (amended): `get_collection_stats` returns an embedding percentage,
not a ratio: the value is 0 when the collection is empty and otherwise
equals embedded/total × 100 rounded half-to-even to two decimal places;
because the embedded count never exceeds the total it always lies in
[0, 100] (the implied ratio value/100 lies in [0,1]), with no explicit
clamping performed. -/
theorem c6_embedding_percentage_amended (c : Cache) (docs : List StoredDoc) :
    (docs.length = 0 → (getCollectionStats c docs).embedding_percentage = 0) ∧
    (0 < docs.length → (getCollectionStats c docs).embedding_percentage =
      round2 (((docs.filter (fun d => d.reasonEmbedded.isSome)).length : ℚ)
        / (docs.length : ℚ) * 100)) ∧
    0 ≤ (getCollectionStats c docs).embedding_percentage ∧
    (getCollectionStats c docs).embedding_percentage ≤ 100 := by
  refine ⟨?_, ?_, ?_, ?_⟩
  · intro h
    simp [getCollectionStats, h]
  · intro h
    simp [getCollectionStats, h]
  · by_cases h : 0 < docs.length
    · simp only [getCollectionStats, if_pos h]
      apply round2_nonneg
      positivity
    · simp [getCollectionStats, h]
  · by_cases h : 0 < docs.length
    · simp only [getCollectionStats, if_pos h]
      apply round2_le_hundred
      have he : ((docs.filter (fun d => d.reasonEmbedded.isSome)).length : ℚ)
          ≤ (docs.length : ℚ) := by
        exact_mod_cast List.length_filter_le _ _
      have ht : (0 : ℚ) < (docs.length : ℚ) := by exact_mod_cast h
      rw [div_mul_eq_mul_div, div_le_iff₀ ht]
      linarith
    · simp [getCollectionStats, h]

/-- Witness for C6 (amended) on the three-document collection. -/
theorem c6_embedding_percentage_amended_witness :
    0 < docsC6.length ∧
    (getCollectionStats [] docsC6).embedding_percentage =
      round2 (((docsC6.filter (fun d => d.reasonEmbedded.isSome)).length : ℚ)
        / (docsC6.length : ℚ) * 100) :=
  ⟨by decide, (c6_embedding_percentage_amended [] docsC6).2.1 (by decide)⟩

/-- C3: `find_similar_by_id` searches with `limit + 1` (every store query
it issues requests `min (limit + 1) max_search_limit` results), never
returns an item whose id equals the origin document id, and returns at
most `limit` items even when the underlying search returns `limit + 1`. -/
theorem c3_find_similar_excludes_origin_and_truncates (env : Env) (s : Settings)
    (st : Cache) (now : ℕ) (docId : String) (limit : ℕ)
    (res : List SearchResult) (st' : Cache) (tr : List Effect)
    (h : findSimilarById env s st now docId limit = (Except.ok res, st', tr)) :
    res.length ≤ limit ∧ (∀ r ∈ res, r._id ≠ docId) ∧
    (∀ x ∈ storeQueries tr, x.2.2.2 = min (limit + 1) s.max_search_limit) := by
  rcases hf : env.findOne docId with _ | doc
  · simp [findSimilarById, hf] at h
  · by_cases hr : docReason doc = ""
    · simp [findSimilarById, hf, hr] at h
    · rcases hs : search env s st now (docReason doc) (some (limit + 1)) with ⟨r', st'', effs⟩
      cases r' with
      | error e => simp [findSimilarById, hf, hr, hs] at h
      | ok results =>
        simp only [findSimilarById, hf, hr, hs, ite_false, if_neg hr, Prod.mk.injEq,
          Except.ok.injEq] at h
        obtain ⟨hres, hst, htr⟩ := h
        subst hres hst htr
        refine ⟨?_, ?_, ?_⟩
        · exact List.length_take_le limit _
        · intro r hrmem
          have h2 := List.of_mem_filter (List.mem_of_mem_take hrmem)
          simpa using h2
        · intro x hx
          have hx' : x ∈ storeQueries effs := hx
          have hxx := search_storeQueries env s st now (docReason doc)
            (some (limit + 1)) _ _ _ hs x hx'
          rw [hxx]
          rfl

/-- Witness for C3: the store returns three matches for a two-item request,
one of them the origin document itself. -/
theorem c3_find_similar_excludes_origin_and_truncates_witness :
    ([resA, resB] : List SearchResult).length ≤ 2 ∧
    (∀ r ∈ ([resA, resB] : List SearchResult), r._id ≠ "X") ∧
    (∀ x ∈ storeQueries
        [Effect.docLookup "X", Effect.embedCall "r",
         Effect.storeQuery "default" "Reason_Embedded" 200 (min 3 100)],
      x.2.2.2 = min (2 + 1) defaultSettings.max_search_limit) :=
  c3_find_similar_excludes_origin_and_truncates envDoc defaultSettings [] 0 "X" 2
    [resA, resB]
    (cachePut [] 0 (searchKey defaultSettings "r" (some 3)) [resX, resA, resB])
    [Effect.docLookup "X", Effect.embedCall "r",
     Effect.storeQuery "default" "Reason_Embedded" 200 (min 3 100)]
    rfl

/-- C4: `find_similar_by_id` fails with the not-found error when the
document id is absent from the store — the point lookup being the only
effect, with zero embedding calls and zero store searches — and fails with
the no-reason error when the looked-up document's reason field is absent
or empty. -/
theorem c4_find_similar_error_cases (env : Env) (s : Settings) (st : Cache)
    (now : ℕ) (docId : String) (limit : ℕ) :
    (env.findOne docId = none →
      findSimilarById env s st now docId limit =
        (Except.error (SearchError.notFound docId), st, [Effect.docLookup docId]) ∧
      embedCallCount [Effect.docLookup docId] = 0 ∧
      storeQueryCount [Effect.docLookup docId] = 0) ∧
    (∀ doc, env.findOne docId = some doc → docReason doc = "" →
      findSimilarById env s st now docId limit =
        (Except.error (SearchError.noReason docId), st, [Effect.docLookup docId])) := by
  constructor
  · intro hf
    refine ⟨by simp [findSimilarById, hf], rfl, rfl⟩
  · intro doc hf hr
    simp [findSimilarById, hf, hr]

/-- Witness for C4: id "Z" is absent, document "Y" exists but has no
reason text. -/
theorem c4_find_similar_error_cases_witness :
    (findSimilarById envDoc defaultSettings [] 0 "Z" 10 =
        (Except.error (SearchError.notFound "Z"), [], [Effect.docLookup "Z"]) ∧
      embedCallCount [Effect.docLookup "Z"] = 0 ∧
      storeQueryCount [Effect.docLookup "Z"] = 0) ∧
    findSimilarById envDoc defaultSettings [] 0 "Y" 10 =
      (Except.error (SearchError.noReason "Y"), [], [Effect.docLookup "Y"]) :=
  ⟨(c4_find_similar_error_cases envDoc defaultSettings [] 0 "Z" 10).1 rfl,
   (c4_find_similar_error_cases envDoc defaultSettings [] 0 "Y" 10).2 docNoReasonY rfl rfl⟩

/-- C5: when the embedding call fails on a cache miss, `search` propagates
the provider failure to the caller, issues no store query (the trace is
exactly the one embedding call), and returns the cache unchanged — the
failure is never swallowed into an empty result set. -/
theorem c5_embedding_failure_propagates (env : Env) (s : Settings) (st : Cache)
    (now : ℕ) (q : String) (lo : Option ℕ) (msg : String)
    (hmiss : cacheGet s st now (searchKey s q lo) = none)
    (hk : s.voyage_api_key ≠ "") (he : env.embed q = Except.error msg) :
    search env s st now q lo =
      (Except.error (SearchError.providerError msg), st, [Effect.embedCall q]) ∧
    storeQueryCount [Effect.embedCall q] = 0 :=
  ⟨search_embed_fail env s st now q lo msg hmiss hk he, rfl⟩

/-- Witness for C5 at a concrete failing provider. -/
theorem c5_embedding_failure_propagates_witness :
    search envFail defaultSettings [] 0 "q" (some 3) =
      (Except.error (SearchError.providerError "boom"), [], [Effect.embedCall "q"]) ∧
    storeQueryCount [Effect.embedCall "q"] = 0 :=
  c5_embedding_failure_propagates envFail defaultSettings [] 0 "q" (some 3) "boom"
    rfl (by decide) rfl

/-- C7: every store query `search` issues uses the configured
candidate-pool constant (independent of the requested limit) as
numCandidates and `min(limit, max_search_limit)` as the requested result
count; under the reference configuration the pool is 200, which is at
least the requested result count, and at least the requested limit
whenever that limit is within the configured maximum. -/
theorem c7_store_query_parameters (env : Env) (s : Settings) (st : Cache)
    (now : ℕ) (q : String) (limit : ℕ)
    (r : Except SearchError (List SearchResult)) (st' : Cache) (tr : List Effect)
    (h : search env s st now q (some limit) = (r, st', tr)) :
    ∀ x ∈ storeQueries tr,
      x.2.2.1 = s.vector_search_candidates ∧
      x.2.2.2 = min limit s.max_search_limit ∧
      (s = defaultSettings →
        x.2.2.1 = 200 ∧ x.2.2.2 ≤ x.2.2.1 ∧
        (limit ≤ s.max_search_limit → limit ≤ x.2.2.1)) := by
  intro x hx
  have hxx := search_storeQueries env s st now q (some limit) r st' tr h x hx
  subst hxx
  refine ⟨rfl, rfl, ?_⟩
  intro hs
  subst hs
  have hmax : defaultSettings.max_search_limit = 100 := rfl
  have hcand : defaultSettings.vector_search_candidates = 200 := rfl
  refine ⟨rfl, ?_, ?_⟩
  · show min limit defaultSettings.max_search_limit ≤ defaultSettings.vector_search_candidates
    rw [hmax, hcand]
    omega
  · intro hlim
    rw [hmax] at hlim
    show limit ≤ defaultSettings.vector_search_candidates
    rw [hcand]
    omega

/-- Witness for C7 on a concrete successful run, instantiated at the
single store query that run issues. -/
theorem c7_store_query_parameters_witness :
    (("default", "Reason_Embedded", 200, min 3 100) :
      String × String × ℕ × ℕ).2.2.1 = defaultSettings.vector_search_candidates ∧
    (("default", "Reason_Embedded", 200, min 3 100) :
      String × String × ℕ × ℕ).2.2.2 = min 3 defaultSettings.max_search_limit ∧
    (defaultSettings = defaultSettings →
      (("default", "Reason_Embedded", 200, min 3 100) :
        String × String × ℕ × ℕ).2.2.1 = 200 ∧
      (("default", "Reason_Embedded", 200, min 3 100) :
        String × String × ℕ × ℕ).2.2.2 ≤
        (("default", "Reason_Embedded", 200, min 3 100) :
          String × String × ℕ × ℕ).2.2.1 ∧
      (3 ≤ defaultSettings.max_search_limit → 3 ≤
        (("default", "Reason_Embedded", 200, min 3 100) :
          String × String × ℕ × ℕ).2.2.1)) :=
  c7_store_query_parameters envOk defaultSettings [] 0 "validation failed" 3
    (Except.ok [])
    (cachePut [] 0 (searchKey defaultSettings "validation failed" (some 3)) [])
    [Effect.embedCall "validation failed",
     Effect.storeQuery "default" "Reason_Embedded" 200 (min 3 100)]
    rfl
    ("default", "Reason_Embedded", 200, min 3 100) (by decide)

/-- C8: the embedding operation fails with the client-not-initialized
error whenever no embedding credential is configured (making no provider
call), fails with the provider error when the remote call fails, and never
retries internally: its trace holds at most one provider call for every
input text and environment. -/
theorem c8_embedding_error_modes_and_no_retry (env : Env) (s : Settings) (text : String) :
    (s.voyage_api_key = "" →
      generateEmbedding env s text = (Except.error SearchError.clientNotInitialized, [])) ∧
    (∀ msg, s.voyage_api_key ≠ "" → env.embed text = Except.error msg →
      generateEmbedding env s text =
        (Except.error (SearchError.providerError msg), [Effect.embedCall text])) ∧
    embedCallCount (generateEmbedding env s text).2 ≤ 1 :=
  ⟨fun h => generateEmbedding_noKey env s text h,
   fun msg hk he => generateEmbedding_err env s text msg hk he,
   generateEmbedding_at_most_one_call env s text⟩

/-- Witness for C8: a missing credential and a failing provider, each at a
concrete input. -/
theorem c8_embedding_error_modes_and_no_retry_witness :
    generateEmbedding envFail settingsNoKey "t" =
      (Except.error SearchError.clientNotInitialized, []) ∧
    generateEmbedding envFail defaultSettings "t" =
      (Except.error (SearchError.providerError "boom"), [Effect.embedCall "t"]) ∧
    embedCallCount (generateEmbedding envFail defaultSettings "t").2 ≤ 1 :=
  ⟨(c8_embedding_error_modes_and_no_retry envFail settingsNoKey "t").1 rfl,
   (c8_embedding_error_modes_and_no_retry envFail defaultSettings "t").2.1 "boom"
     (by decide) rfl,
   (c8_embedding_error_modes_and_no_retry envFail defaultSettings "t").2.2⟩

/-- C10: the cache key is computed from the caller-supplied limit before
clamping: for any two distinct limits both exceeding the configured
maximum, the two searches use different cache keys — an entry written
under one key is invisible to the other — even though both issue the
identical store query, requesting `max_search_limit` results from the
configured candidate pool. -/
theorem c10_cache_key_uses_unclamped_limit (s : Settings) (q : String) (l1 l2 : ℕ)
    (hne : l1 ≠ l2) (h1 : s.max_search_limit < l1) (h2 : s.max_search_limit < l2) :
    generateCacheKey s q l1 ≠ generateCacheKey s q l2 ∧
    (∀ env st now r st' tr, search env s st now q (some l1) = (r, st', tr) →
      ∀ x ∈ storeQueries tr,
        x.2.2.1 = s.vector_search_candidates ∧ x.2.2.2 = s.max_search_limit) ∧
    (∀ env st now r st' tr, search env s st now q (some l2) = (r, st', tr) →
      ∀ x ∈ storeQueries tr,
        x.2.2.1 = s.vector_search_candidates ∧ x.2.2.2 = s.max_search_limit) ∧
    (∀ st t v now', cacheGet s (cachePut st t (generateCacheKey s q l1) v) now'
        (generateCacheKey s q l2) = cacheGet s st now' (generateCacheKey s q l2)) := by
  refine ⟨cacheKeyFor_limit_inj q s.voyage_model hne, ?_, ?_, ?_⟩
  · intro env st now r st' tr h x hx
    have hxx := search_storeQueries env s st now q (some l1) r st' tr h x hx
    subst hxx
    exact ⟨rfl, min_eq_right (le_of_lt h1)⟩
  · intro env st now r st' tr h x hx
    have hxx := search_storeQueries env s st now q (some l2) r st' tr h x hx
    subst hxx
    exact ⟨rfl, min_eq_right (le_of_lt h2)⟩
  · intro st t v now'
    exact cacheGet_put_other s st t now' (generateCacheKey s q l1)
      (generateCacheKey s q l2) v (cacheKeyFor_limit_inj q s.voyage_model (Ne.symm hne))

/-- Witness for C10 at limits 101 and 102 over the default maximum 100. -/
theorem c10_cache_key_uses_unclamped_limit_witness :
    generateCacheKey defaultSettings "x" 101 ≠ generateCacheKey defaultSettings "x" 102 :=
  (c10_cache_key_uses_unclamped_limit defaultSettings "x" 101 102
    (by decide) (by decide) (by decide)).1

end Freight

